import Mathlib

/-!
Verification development for the CodePilot AI orchestrator backend.

The definitions below are a shallow embedding of the Python sources:

* `src/models/task_spec.py`   — task record shape (persisted JSON dicts)
* `src/storage/task_storage.py` — task store (one JSON file per task id)
* `src/services/git_service.py` — git workspace operations
* `src/services/test_service.py` — test invoker
* `src/main.py`               — the apply-change / run-tests handlers and
                                the repository file resolver

External effects are made explicit:

* the task directory is a list of `(file stem, parse result)` pairs, where a
  `none` parse result models a file whose JSON cannot be decoded;
* the git binary is modelled by `gitExec`, a state machine over `GitState`
  covering exactly the commands the sources invoke;
* the workspace tree is a list of `(repo-relative path, content)` pairs;
* the LLM content generator is an arbitrary function argument;
* clock reads are an explicit `now` string argument.

Python exceptions are modelled by `PyErr`; handlers return their final store
and git state next to an `Except` result, because in Python an exception does
not roll back writes performed before it was raised.  Note that
`storage.load_task` returns a plain `dict` (from `json.load`), so the
attribute accesses `task.branch_name`, `task.status := ...` that the handlers
perform after reloading raise `AttributeError`; `dictAttributeError` models
that fact.
-/

namespace CodePilot

/-! ### Executable string primitives

Kernel-reducible equivalents of the Python string operations the sources use
(`str.replace`, slicing, `in`, `str.strip`, `str.endswith`), written over the
character list of the string so that concrete runs evaluate by `decide`. -/

/-- Python `s.replace("-", "")` as used on task ids: drop every dash. -/
def stripDashes (s : String) : String :=
  String.mk (s.data.filter (fun c => ¬c = '-'))

/-- Python slicing `s[:n]`. -/
def pyTake (s : String) (n : Nat) : String := String.mk (s.data.take n)

/-- Python slicing `s[-n:]` (the whole string when it is shorter). -/
def pyTakeRight (s : String) (n : Nat) : String :=
  String.mk (s.data.drop (s.data.length - n))

/-- Python `s.strip()`. -/
def pyStrip (s : String) : String :=
  String.mk (((s.data.dropWhile Char.isWhitespace).reverse.dropWhile Char.isWhitespace).reverse)

/-- Python `s.endswith(suffix)`. -/
def pyEndsWith (s suffix : String) : Bool := suffix.data.isSuffixOf s.data

/-- Occurrence of a pattern as a contiguous sublist. -/
def subOccurs (pat : List Char) : List Char → Bool
  | [] => pat.isEmpty
  | c :: rest => pat.isPrefixOf (c :: rest) || subOccurs pat rest

/-- Python substring test `pat in s`. -/
def strContains (s pat : String) : Bool := subOccurs pat.data s.data

/-- Python exceptions that the embedded code can raise. -/
inductive PyErr where
  | http (status : Nat) (detail : String)
  | runtime (msg : String)
  | valueError (msg : String)
  | jsonDecode
  | attributeError (msg : String)
deriving DecidableEq, Repr

/-- One entry of a task's `run_history` list (`src/main.py` appends
apply records, test records and test-error records). -/
inductive RunEntry where
  | applyRun (applied_at : String) (branch : String) (files_modified : List String)
  | testRun (test_status : String) (exit_code : Int) (at_ : String) (branch : String)
  | testError (error : String) (at_ : String) (branch : String)
deriving DecidableEq, Repr

/-- One entry of a task's `timeline` list, as appended by
`storage/task_storage.add_task_event`. -/
structure TimelineEvent where
  at_ : String
  event : String
  details : Option String
deriving DecidableEq, Repr

/-- The persisted task record.  Tasks are stored as JSON dicts; a key that may
be absent from the dict is an `Option` field (with `none` = absent), and
`affected_files` defaults to `[]` because every reader guards it with
`or []`. -/
structure Task where
  task_id : String
  status : Option String := none
  description : Option String := none
  affected_files : List String := []
  applied_branch : Option String := none
  branch_name : Option String := none
  run_history : List RunEntry := []
  timeline : List TimelineEvent := []
  last_test_status : Option String := none
  last_test_at : Option String := none
  created_at : Option String := none
  updated_at : Option String := none
deriving DecidableEq, Repr

/-- The `tasks/` directory: file stem (the task id the file is named by)
paired with its parse result; `none` models a file whose content is not valid
JSON. -/
abbrev Store := List (String × Option Task)

/-- Write-or-insert a task file into the directory (models writing
`tasks/<task_id>.json`). -/
def storeWrite (store : Store) (id : String) (t : Option Task) : Store :=
  if store.any (fun p => p.1 = id) then
    store.map (fun p => if p.1 = id then (id, t) else p)
  else
    store ++ [(id, t)]

/-- `storage/task_storage.save_task`: requires a truthy `task_id`, then dumps
the task to `tasks/<task_id>.json`. -/
def save_task (store : Store) (task : Task) : Except PyErr Store :=
  if task.task_id = "" then
    .error (.valueError "Task dict must include a \x27task_id\x27 field")
  else
    .ok (storeWrite store task.task_id (some task))

/-- `storage/task_storage.load_task`: `none` result when the file does not
exist; a corrupt file makes `json.load` raise. -/
def load_task (store : Store) (task_id : String) : Except PyErr (Option Task) :=
  match store.lookup task_id with
  | none => .ok none
  | some none => .error .jsonDecode
  | some (some t) => .ok (some t)

/-- Sort key used by `storage/task_storage.list_tasks`:
`t.get("created_at", "")`. -/
def sortKey (t : Task) : String := t.created_at.getD ""

/-- `storage/task_storage.list_tasks`: decode every task file, skipping files
whose JSON cannot be parsed, then sort by `created_at` descending
(`reverse=True`, stable). -/
def list_tasks (store : Store) : List Task :=
  (store.filterMap Prod.snd).mergeSort (fun a b => decide (sortKey b ≤ sortKey a))

/-- `storage/task_storage.add_task_event`: load the task by id; if there is no
record, return silently; otherwise append to the `timeline` list and save. -/
def add_task_event (store : Store) (task_id : String) (event : String)
    (details : Option String) (now : String) : Except PyErr Store := do
  let t? ← load_task store task_id
  match t? with
  | none => .ok store
  | some t =>
      save_task store { t with timeline := t.timeline ++ [⟨now, event, details⟩] }

/-- `main.guess_language_from_extension`: fixed extension-to-label lookup. -/
def guess_language_from_extension (path : String) : Option String :=
  if pyEndsWith path ".java" then some "java"
  else if pyEndsWith path ".py" then some "python"
  else if pyEndsWith path ".md" then some "markdown"
  else if pyEndsWith path ".js" then some "javascript"
  else if pyEndsWith path ".ts" then some "typescript"
  else none

/-- The body of `main.ApplyTaskCodeRequest`: the apply endpoint takes a single
optional field, the language hint applied to every file. -/
structure ApplyTaskCodeRequest where
  language_hint : Option String := none
deriving DecidableEq, Repr

/-- Final path segment, `pathlib.Path(p).name`: what follows the last `/`. -/
def baseName (p : String) : String :=
  String.mk (p.data.foldl (fun acc c => if c = '/' then [] else acc ++ [c]) [])

/-- The filename search performed by `main.resolve_repo_file` via `os.walk`:
all workspace files whose final name equals `filename`, in walk order. -/
def walkMatches (files : List String) (filename : String) : List String :=
  files.filter (fun p => baseName p = filename)

/-- Detail string of the ambiguity error raised by `main.resolve_repo_file`
(quotes written as \x27). -/
def ambiguousDetail (filename : String) (rels : List String) : String :=
  "Multiple matches for file \x27" ++ filename ++ "\x27 in repo. Candidates: " ++
    String.intercalate ", " rels ++
    ". Please specify a more precise path in affected_files."

/-- `main.resolve_repo_file` over the list of repo-relative paths of the files
existing in the workspace.  Paths are kept repo-relative (the source returns
absolute paths and callers immediately take `relative_to(repo_path)`). -/
def resolve_repo_file (files : List String) (rel_path : String) : Except PyErr String :=
  if rel_path ∈ files then .ok rel_path
  else
    let filename := baseName rel_path
    let found := walkMatches files filename
    if found.length = 1 then .ok (found.getD 0 rel_path)
    else if found.length > 1 then
      .error (.http 400 (ambiguousDetail filename found))
    else .ok rel_path

/-! ## Git model (`src/services/git_service.py`) -/

/-- Module-level configuration of `git_service.py` (env defaults). -/
def TARGET_REPO_DEFAULT_BRANCH : String := "master"

/-- Local path of the shared workspace clone (env default). -/
def TARGET_REPO_LOCAL_PATH : String := "./workspace/journalApp"

/-- Remote URL of the target repository. -/
def TARGET_REPO_URL : String := "https://example.invalid/journalApp.git"

/-- Observable state of the shared on-disk clone plus the outcome flags of the
network-touching commands. -/
structure GitState where
  repoExists : Bool
  branches : List String
  current : String
  hasChanges : Bool
  cloneOk : Bool := true
  fetchOk : Bool := true
  pullOk : Bool := true
  pushOk : Bool := true
deriving DecidableEq, Repr

/-- Result of one git process invocation. -/
structure GitOut where
  returncode : Nat
  stdout : String
  stderr : String
  state : GitState
deriving DecidableEq, Repr

/-- Model of the external `git` binary for exactly the commands the sources
invoke (spec section 6 process boundary).  `checkout -b` fails when the branch
already exists; plain `checkout` fails when the branch is unknown or when
uncommitted changes block switching; `commit` fails with the
nothing-to-commit message when the working tree is clean; a failing command
leaves the on-disk state unchanged. -/
def gitExec (args : List String) (st : GitState) : GitOut :=
  let cmd := args.headD ""
  let a1 := (args.drop 1).headD ""
  let a2 := (args.drop 2).headD ""
  if cmd = "clone" then
    if st.cloneOk then
      ⟨0, "", "", { st with repoExists := true,
                            branches := [TARGET_REPO_DEFAULT_BRANCH],
                            current := TARGET_REPO_DEFAULT_BRANCH,
                            hasChanges := false }⟩
    else ⟨128, "", "fatal: unable to access remote", st⟩
  else if cmd = "fetch" then
    if st.fetchOk then ⟨0, "", "", st⟩ else ⟨1, "", "fatal: could not fetch origin", st⟩
  else if cmd = "checkout" then
    if args.length = 3 then
      -- checkout -b <branch>
      let b := a2
      if b ∈ st.branches then
        ⟨128, "", "fatal: a branch named " ++ b ++ " already exists", st⟩
      else
        ⟨0, "", "Switched to a new branch " ++ b,
          { st with branches := b :: st.branches, current := b }⟩
    else
      -- checkout <branch>
      let b := a1
      if b ∈ st.branches then
        if st.hasChanges ∧ b ≠ st.current then
          ⟨1, "", "error: Your local changes would be overwritten by checkout", st⟩
        else ⟨0, "", "Switched to branch " ++ b, { st with current := b }⟩
      else ⟨1, "", "error: pathspec " ++ b ++ " did not match any file known to git", st⟩
  else if cmd = "pull" then
    if st.pullOk then ⟨0, "Already up to date.", "", st⟩
    else ⟨1, "", "fatal: could not read from remote repository", st⟩
  else if cmd = "reset" then ⟨0, "", "", { st with hasChanges := false }⟩
  else if cmd = "clean" then ⟨0, "", "", { st with hasChanges := false }⟩
  else if cmd = "add" then ⟨0, "", "", st⟩
  else if cmd = "commit" then
    if st.hasChanges then ⟨0, "", "", { st with hasChanges := false }⟩
    else ⟨1, "nothing to commit, working tree clean", "", st⟩
  else if cmd = "push" then
    if st.pushOk then ⟨0, "", "", st⟩ else ⟨1, "", "error: failed to push some refs", st⟩
  else ⟨1, "", "unknown command", st⟩

/-- `git_service.run_git_command`: run git, and on a non-zero exit raise
`RuntimeError` whose message contains only the joined argument list (the
captured stdout/stderr are printed, not put into the exception). -/
def run_git_command (args : List String) (st : GitState) : Except PyErr (String × GitState) :=
  let r := gitExec args st
  if r.returncode ≠ 0 then
    .error (.runtime ("Git command failed: " ++ String.intercalate " " args))
  else .ok (pyStrip r.stdout, r.state)

/-- `git_service.ensure_repo_cloned`: clone on first use; otherwise fetch,
check out the default branch (recovering once from a blocked checkout via
`reset --hard` + `clean -fd`, whose exit codes are ignored), then pull. -/
def ensure_repo_cloned (st : GitState) : Except PyErr GitState :=
  if ¬st.repoExists then do
    let (_, st) ← run_git_command ["clone", TARGET_REPO_URL, TARGET_REPO_LOCAL_PATH] st
    let (_, st) ← run_git_command ["checkout", TARGET_REPO_DEFAULT_BRANCH] st
    let (_, st) ← run_git_command ["pull", "origin", TARGET_REPO_DEFAULT_BRANCH] st
    .ok st
  else do
    let (_, st) ← run_git_command ["fetch", "origin"] st
    let st ←
      match run_git_command ["checkout", TARGET_REPO_DEFAULT_BRANCH] st with
      | .ok (_, st) => pure st
      | .error _ =>
          let st := (gitExec ["reset", "--hard"] st).state
          let st := (gitExec ["clean", "-fd"] st).state
          do
            let (_, st) ← run_git_command ["checkout", TARGET_REPO_DEFAULT_BRANCH] st
            pure st
    let (_, st) ← run_git_command ["pull", "origin", TARGET_REPO_DEFAULT_BRANCH] st
    .ok st

/-- `git_service.create_feature_branch`: ensure the clone, check out and pull
the default branch, then `checkout -b branch_name`. -/
def create_feature_branch (branch_name : String) (st : GitState) : Except PyErr GitState := do
  let st ← ensure_repo_cloned st
  let (_, st) ← run_git_command ["checkout", TARGET_REPO_DEFAULT_BRANCH] st
  let (_, st) ← run_git_command ["pull", "origin", TARGET_REPO_DEFAULT_BRANCH] st
  let (_, st) ← run_git_command ["checkout", "-b", branch_name] st
  .ok st

/-- `git_service.commit_and_push`: check out the branch, stage everything,
commit — swallowing a commit failure only when the exception message contains
"nothing to commit" or "no changes added to commit" — then push with
upstream tracking. -/
def commit_and_push (branch_name : String) (commit_message : String)
    (st : GitState) : Except PyErr GitState := do
  if ¬st.repoExists then
    throw (.runtime "Local repo does not exist. Call ensure_repo_cloned() first.")
  let (_, st) ← run_git_command ["checkout", branch_name] st
  let (_, st) ← run_git_command ["add", "."] st
  let st ←
    match run_git_command ["commit", "-m", commit_message] st with
    | .ok (_, st) => pure st
    | .error e =>
        match e with
        | .runtime msg =>
            if strContains msg "nothing to commit" ∨ strContains msg "no changes added to commit" then
              pure st
            else throw (.runtime msg)
        | e => throw e
  let (_, st) ← run_git_command ["push", "-u", "origin", branch_name] st
  .ok st

/-! ## Test invoker (`src/services/test_service.py`) -/

/-- Captured output of the test subprocess. -/
structure ProcOut where
  returncode : Int
  stdout : String
  stderr : String
deriving DecidableEq, Repr

/-- The dict returned by `test_service.run_tests_in_repo`. -/
structure TestRunResult where
  success : Bool
  exit_code : Int
  stdout : String
  stderr : String
deriving DecidableEq, Repr

/-- `test_service.run_tests_in_repo`: probe for `./mvnw`, fall back to a
system `mvn`, fail fatally when neither exists; run the command (`proc` is
the subprocess outcome) and keep only the last 4000 characters of each
stream. -/
def run_tests_in_repo (repoExists mvnwExists mvnOnPath : Bool)
    (proc : ProcOut) : Except PyErr TestRunResult :=
  if ¬repoExists then
    .error (.runtime ("Repo path does not exist: " ++ TARGET_REPO_LOCAL_PATH))
  else if ¬(mvnwExists ∨ mvnOnPath) then
    .error (.runtime ("No Maven wrapper (mvnw) or mvn executable found. " ++
      "Install Maven or add a test runner script."))
  else
    .ok { success := proc.returncode = 0
          exit_code := proc.returncode
          stdout := pyTakeRight proc.stdout 4000
          stderr := pyTakeRight proc.stderr 4000 }

/-! ## Endpoint handlers (`src/main.py`) -/

/-- The attribute accesses `task.branch_name` (and everything after them)
performed by the handlers on a *reloaded* task: `storage.load_task` returns a
plain dict from `json.load`, and attribute access on a dict raises
`AttributeError`, so those statements always raise and the code that follows
them is unreachable. -/
def dictAttributeError (_task : Task) (attr : String) : PyErr :=
  .attributeError ("\x27dict\x27 object has no attribute \x27" ++ attr ++ "\x27")

/-- Body of the `/tasks/{task_id}/apply-change` response (built after the
attribute access above, hence never actually produced). -/
structure ApplyResponse where
  status : String
  task_id : String
  branch : String
deriving DecidableEq, Repr

deriving instance DecidableEq for Except

/-- Outcome of an apply-change request: final persisted store, final
workspace tree, final git state, and the HTTP result or raised exception.
State mutated before an exception is kept, as in Python. -/
structure ApplyOutcome where
  store : Store
  files : List (String × String)
  git : GitState
  result : Except PyErr ApplyResponse
deriving DecidableEq, Repr

/-- Workspace tree: names of the existing files. -/
def fsNames (files : List (String × String)) : List String := files.map Prod.fst

/-- Read a workspace file (empty when absent, mirroring the "new file"
branch of the apply loop). -/
def fsRead (files : List (String × String)) (p : String) : String :=
  ((files.find? (fun q => q.1 = p)).map Prod.snd).getD ""

/-- Write (create or overwrite) a workspace file. -/
def fsWrite (files : List (String × String)) (p content : String) : List (String × String) :=
  if files.any (fun q => q.1 = p) then
    files.map (fun q => if q.1 = p then (p, content) else q)
  else files ++ [(p, content)]

/-- The external content generator
(`coding_agent.generate_updated_file_content`):
original content, resolved path, instruction, language hint to new content. -/
abbrev Gen := String → String → String → Option String → String

/-- Python `a or b` over an optional string (an empty string is falsy). -/
def pyOrStr (a : Option String) (b : Option String) : Option String :=
  match a with
  | some s => if s = "" then b else some s
  | none => b

/-- The per-file loop of `main.apply_change_for_task` (step 4): resolve every
affected file, read it (or start empty), call the generator, write the result
back — which dirties the git working tree — and record the path actually
modified.  A resolution failure aborts the loop, keeping the writes performed
so far. -/
def applyLoop (gen : Gen) (description : String) (hint : Option String) :
    List String → List (String × String) → GitState → List String →
    List (String × String) × GitState × Except PyErr (List String)
  | [], files, git, acc => (files, git, .ok acc)
  | rel_path :: rest, files, git, acc =>
    match resolve_repo_file (fsNames files) rel_path with
    | .error e => (files, git, .error e)
    | .ok resolved_rel =>
        let original_content :=
          if resolved_rel ∈ fsNames files then fsRead files resolved_rel else ""
        let lang_hint := pyOrStr hint (guess_language_from_extension resolved_rel)
        let updated_content := gen original_content resolved_rel description lang_hint
        let files := fsWrite files resolved_rel updated_content
        let git := { git with hasChanges := true }
        applyLoop gen description hint rest files git (acc ++ [resolved_rel])

/-- `main.apply_change_for_task` (`POST /tasks/{task_id}/apply-change`):
load the task, reject when its status is the persisted closed marker
("closed"), validate description and affected_files, derive the branch name
`cpai-` + first 6 chars of the dash-stripped task id, sync the workspace and
branch, run the per-file loop, commit and push, persist
status="closed"/applied_branch/updated_at plus a run_history entry, then
reload and hit the dict attribute access (which raises).  Error paths return
the store as persisted so far; git state on git-raised errors is reported as
it was before the failing call (failing commands do not mutate it). -/
def apply_change_for_task (store : Store) (task_id : String)
    (req : ApplyTaskCodeRequest) (files : List (String × String))
    (git : GitState) (gen : Gen) (now : String) : ApplyOutcome :=
  match load_task store task_id with
  | .error e => ⟨store, files, git, .error e⟩
  | .ok none => ⟨store, files, git, .error (.http 404 "Task not found")⟩
  | .ok (some task) =>
    let status := task.status.getD "open"
    if status = "closed" then
      ⟨store, files, git,
        .error (.http 400 "Task is already closed. Create a new task for additional changes.")⟩
    else
      let description := task.description.getD ""
      let affected_files := task.affected_files
      if description = "" then
        ⟨store, files, git, .error (.http 400 "Task has no description")⟩
      else if affected_files = [] then
        ⟨store, files, git,
          .error (.http 400 "Task has no affected_files. Ensure the spec agent populates this list.")⟩
      else
        let compact_id := stripDashes task_id
        let branch_name := "cpai-" ++ pyTake compact_id 6
        match ensure_repo_cloned git with
        | .error e => ⟨store, files, git, .error e⟩
        | .ok git =>
          match create_feature_branch branch_name git with
          | .error e => ⟨store, files, git, .error e⟩
          | .ok git =>
            match applyLoop gen description req.language_hint affected_files files git [] with
            | (files, git, .error e) => ⟨store, files, git, .error e⟩
            | (files, git, .ok actual_modified_paths) =>
              let commit_message := "CodePilot AI: " ++ pyTake description 60
              match commit_and_push branch_name commit_message git with
              | .error e => ⟨store, files, git, .error e⟩
              | .ok git =>
                let task := { task with
                  status := some "closed"
                  applied_branch := some branch_name
                  updated_at := some now
                  run_history := task.run_history ++
                    [.applyRun now branch_name actual_modified_paths] }
                match save_task store task with
                | .error e => ⟨store, files, git, .error e⟩
                | .ok store =>
                  match load_task store task_id with
                  | .error e => ⟨store, files, git, .error e⟩
                  | .ok none =>
                      ⟨store, files, git,
                        .error (.http 404 ("Task " ++ task_id ++ " not found"))⟩
                  | .ok (some task2) =>
                      ⟨store, files, git, .error (dictAttributeError task2 "branch_name")⟩

/-- Body of the `/tasks/{task_id}/run-tests` response (never reached, see
`dictAttributeError`). -/
structure RunTestsResponse where
  task_id : String
  branch : String
  status : String
  exit_code : Int
  stdout_tail : String
  stderr_tail : String
deriving DecidableEq, Repr

/-- Outcome of a run-tests request. -/
structure RunTestsOutcome where
  store : Store
  git : GitState
  result : Except PyErr RunTestsResponse
deriving DecidableEq, Repr

/-- `main.run_tests_for_task` (`POST /tasks/{task_id}/run-tests`): load the
task, require `applied_branch` and the local clone, `git checkout` that
branch (`check=True`), best-effort pull (exit ignored), run the tests; on a
test-invocation error persist an error run_history entry and re-raise as 500;
otherwise persist last_test_status ("passed"/"failed" from the exit code),
last_test_at and a run_history entry, then reload and hit the dict attribute
access (which raises before any status/timeline update). -/
def run_tests_for_task (store : Store) (task_id : String) (git : GitState)
    (mvnwExists mvnOnPath : Bool) (proc : ProcOut) (now : String) : RunTestsOutcome :=
  match load_task store task_id with
  | .error e => ⟨store, git, .error e⟩
  | .ok none => ⟨store, git, .error (.http 404 "Task not found")⟩
  | .ok (some task) =>
    let applied_branch := task.applied_branch.getD ""
    if applied_branch = "" then
      ⟨store, git,
        .error (.http 400 ("Task has no applied_branch. You must apply the code changes " ++
          "via /tasks/\x7btask_id\x7d/apply-change before running tests."))⟩
    else if ¬git.repoExists then
      ⟨store, git,
        .error (.http 500 ("Local repo not found at TARGET_REPO_LOCAL_PATH. " ++
          "Make sure /tasks/\x7btask_id\x7d/apply-change has been successfully called at least once."))⟩
    else
      let co := gitExec ["checkout", applied_branch] git
      if co.returncode ≠ 0 then
        ⟨store, git,
          .error (.http 500 ("Failed to checkout branch " ++ applied_branch ++ ": " ++ co.stderr))⟩
      else
        let git := co.state
        let git := (gitExec ["pull", "origin", applied_branch] git).state
        match run_tests_in_repo git.repoExists mvnwExists mvnOnPath proc with
        | .error e =>
            let error_message :=
              match e with
              | .runtime m => m
              | .http _ d => d
              | _ => ""
            let task := { task with
              run_history := task.run_history ++ [.testError error_message now applied_branch]
              last_test_status := some "error"
              last_test_at := some now }
            match save_task store task with
            | .error e2 => ⟨store, git, .error e2⟩
            | .ok store =>
                ⟨store, git,
                  .error (.http 500 ("Error while running tests: " ++ error_message))⟩
        | .ok result =>
            let test_status := if result.success then "passed" else "failed"
            let task := { task with
              last_test_status := some test_status
              last_test_at := some now
              run_history := task.run_history ++
                [.testRun test_status result.exit_code now applied_branch] }
            match save_task store task with
            | .error e => ⟨store, git, .error e⟩
            | .ok store =>
              match load_task store task_id with
              | .error e => ⟨store, git, .error e⟩
              | .ok none =>
                  ⟨store, git, .error (.http 404 ("Task " ++ task_id ++ " not found"))⟩
              | .ok (some task2) =>
                  ⟨store, git, .error (dictAttributeError task2 "branch_name")⟩

/-! ## Concrete fixtures used by witnesses and counterexamples -/

/-- A content generator returning fixed content. -/
def genConst : Gen := fun _ _ _ _ => "generated content"

/-- A healthy workspace clone on the default branch with a clean tree. -/
def gitAllOk : GitState :=
  { repoExists := true, branches := ["master"], current := "master", hasChanges := false }

/-- An open task ready to apply. -/
def openTask : Task :=
  { task_id := "t1", status := some "open", description := some "Add a note",
    affected_files := ["README.md"] }

/-- Store holding just `openTask`. -/
def store0 : Store := [("t1", some openTask)]

/-- Workspace tree with the one affected file present. -/
def files0 : List (String × String) := [("README.md", "hello")]

/-- Fixed clock value. -/
def now0 : String := "2026-01-01T00:00:00+00:00"

/-- A task persisted with the closed status marker. -/
def closedTask : Task := { task_id := "t9", status := some "closed" }

/-- The task record as persisted by a full pass of the apply handler over
`openTask` (first save of step 6, before the handler raises). -/
def appliedTask : Task :=
  { openTask with
    status := some "closed"
    applied_branch := some "cpai-t1"
    updated_at := some now0
    run_history := [.applyRun now0 "cpai-t1" ["README.md"]] }

/-- Git state after the apply pass: feature branch created and pushed. -/
def gitApplied : GitState :=
  { gitAllOk with branches := ["cpai-t1", "master"], current := "cpai-t1" }

/-- Clock value of the test run in the run-tests scenario. -/
def now1 : String := "2026-01-02T00:00:00+00:00"

/-- The task record as persisted by the run-tests handler after a failing
test run over `appliedTask` (before the handler raises). -/
def testedTask : Task :=
  { appliedTask with
    last_test_status := some "failed"
    last_test_at := some now1
    run_history := appliedTask.run_history ++ [.testRun "failed" 1 now1 "cpai-t1"] }

/-- An open task whose affected file name exists in two directories
(end-to-end scenario B). -/
def ambTask : Task :=
  { task_id := "t2", status := some "open", description := some "Add a note",
    affected_files := ["Bar.txt"] }

/-- Workspace tree holding `Bar.txt` in two directories. -/
def filesAmb : List (String × String) := [("a/Bar.txt", "x"), ("b/Bar.txt", "y")]

/-- Git state right after the feature branch for `ambTask` was created. -/
def gitAmb : GitState :=
  { gitAllOk with branches := ["cpai-t2", "master"], current := "cpai-t2" }

/-! ## Claims -/

/-- Claim C1: an apply-change request against a task whose persisted status
is the closed marker is rejected with the conflict detail telling the caller
to create a new task, and the store, workspace and git state are all left
untouched. -/
theorem apply_on_closed_task_rejected (store : Store) (task_id : String)
    (req : ApplyTaskCodeRequest) (files : List (String × String)) (git : GitState)
    (gen : Gen) (now : String) (t : Task)
    (hload : load_task store task_id = .ok (some t))
    (hclosed : t.status = some "closed") :
    apply_change_for_task store task_id req files git gen now =
      ⟨store, files, git,
        .error (.http 400 "Task is already closed. Create a new task for additional changes.")⟩ := by
  unfold apply_change_for_task
  rw [hload]
  simp [hclosed]

/-- Witness for C1: the rejection at a concrete closed task. -/
theorem apply_on_closed_task_rejected_witness :
    apply_change_for_task [("t9", some closedTask)] "t9" {} files0 gitAllOk genConst now0 =
      ⟨[("t9", some closedTask)], files0, gitAllOk,
        .error (.http 400 "Task is already closed. Create a new task for additional changes.")⟩ :=
  apply_on_closed_task_rejected _ _ _ _ _ _ _ closedTask (by decide) (by decide)

/-- Claim C5: a repository-relative path that exists verbatim in the
workspace is returned unchanged by the resolver, no matter which other files
share its final name. -/
theorem resolve_exact_match_precedence (files : List String) (rel_path : String)
    (h : rel_path ∈ files) :
    resolve_repo_file files rel_path = .ok rel_path := by
  unfold resolve_repo_file
  simp [h]

/-- Witness for C5: the declared path wins although `Bar.txt` also exists in
two other places. -/
theorem resolve_exact_match_precedence_witness :
    resolve_repo_file ["dir1/Bar.txt", "dir2/Bar.txt", "Bar.txt"] "dir1/Bar.txt" =
      .ok "dir1/Bar.txt" :=
  resolve_exact_match_precedence _ _ (by decide)

/-- Counterexample to claim C7: on zero filename matches the resolver does
not offer a strict failure — it unconditionally returns the declared path as
a new-file location (scenario A input: `Foo.txt` absent everywhere). -/
theorem resolve_zero_matches_no_strict_failure :
    resolve_repo_file ["README.md", "src/app.py"] "Foo.txt" = .ok "Foo.txt" ∧
    "Foo.txt" ∉ ["README.md", "src/app.py"] ∧
    walkMatches ["README.md", "src/app.py"] "Foo.txt" = [] := by decide

/-- Claim C7 as amended: when resolution finds zero filename matches the
resolver always returns the declared path as the location for a new file
(create-if-missing); no strict policy exists and the apply request type
carries no policy selector (its only field is the language hint). -/
theorem resolve_zero_matches_create_only (files : List String) (rel_path : String)
    (hnx : rel_path ∉ files)
    (hzero : walkMatches files (baseName rel_path) = []) :
    resolve_repo_file files rel_path = .ok rel_path ∧
      ∀ r : ApplyTaskCodeRequest, r = ⟨r.language_hint⟩ := by
  constructor
  · unfold resolve_repo_file
    simp [hnx, hzero]
  · intro r
    cases r
    rfl

/-- Witness for the amended C7 at the scenario A input. -/
theorem resolve_zero_matches_create_only_witness :
    resolve_repo_file ["README.md"] "Foo.txt" = .ok "Foo.txt" :=
  (resolve_zero_matches_create_only ["README.md"] "Foo.txt" (by decide) (by decide)).1

/-- Claim C10: appending a timeline event for a task id with no persisted
record returns without raising and leaves the store exactly as it was (no
file created, no task modified). -/
theorem add_task_event_missing_task_noop (store : Store) (task_id event : String)
    (details : Option String) (now : String)
    (h : store.lookup task_id = none) :
    add_task_event store task_id event details now = .ok store := by
  unfold add_task_event load_task
  rw [h]
  rfl

/-- Witness for C10: appending an event for an unknown id over a one-task
store. -/
theorem add_task_event_missing_task_noop_witness :
    add_task_event store0 "no-such-task" "Tests failed" none now0 = .ok store0 :=
  add_task_event_missing_task_noop _ _ _ _ _ (by decide)

/-- Claim C2 (code bug): running the apply handler to completion on an open
task with a healthy workspace persists the status marker "closed" — not
CODE_APPLIED — and then raises AttributeError, because the handler reloads
the task as a plain dict and accesses `task.branch_name` as an attribute.
The CODE_APPLIED update in its tail is unreachable. -/
theorem apply_success_persists_closed_not_code_applied :
    (apply_change_for_task store0 "t1" {} files0 gitAllOk genConst now0).result =
      .error (dictAttributeError appliedTask "branch_name") ∧
    load_task (apply_change_for_task store0 "t1" {} files0 gitAllOk genConst now0).store "t1" =
      .ok (some appliedTask) ∧
    appliedTask.status = some "closed" ∧
    (stripDashes "t1" = "t1" ∧ appliedTask.applied_branch = some "cpai-t1") := by
  decide

/-- Claim C3 (code bug): with a clean working tree, `git commit` fails with
the nothing-to-commit message, but `run_git_command` raises a RuntimeError
whose text contains only the joined command line, so the "nothing to commit"
substring check in `commit_and_push` cannot match and the failure propagates
instead of being swallowed. -/
theorem commit_nothing_to_commit_still_raises :
    commit_and_push "cpai-t1" "CodePilot AI: Add a note" gitApplied =
      .error (.runtime "Git command failed: commit -m CodePilot AI: Add a note") ∧
    (gitExec ["commit", "-m", "CodePilot AI: Add a note"] gitApplied).stdout =
      "nothing to commit, working tree clean" ∧
    strContains "Git command failed: commit -m CodePilot AI: Add a note" "nothing to commit" = false := by
  decide

/-- Counterexample to claim C4: when the feature branch already exists
locally, `create_feature_branch` does not check it out — its unconditional
`checkout -b` fails and the operation raises. -/
theorem create_feature_branch_existing_branch_raises :
    create_feature_branch "cpai-t1" { gitAllOk with branches := ["cpai-t1", "master"] } =
      .error (.runtime "Git command failed: checkout -b cpai-t1") := by
  decide

/-- Claim C8 (code bug): a failing test run (exit code 1) persists
`last_test_status = "failed"` and one run_history entry, but the task status
is left untouched (it stays "closed", not TESTS_FAILED) and no timeline
event is appended, because the handler raises AttributeError on the reloaded
dict before its status/timeline update. -/
theorem run_tests_exit1_no_status_update_no_timeline_event :
    (run_tests_for_task [("t1", some appliedTask)] "t1" gitApplied
        true true ⟨1, "out", "err"⟩ now1).result =
      .error (dictAttributeError testedTask "branch_name") ∧
    load_task (run_tests_for_task [("t1", some appliedTask)] "t1" gitApplied
        true true ⟨1, "out", "err"⟩ now1).store "t1" =
      .ok (some testedTask) ∧
    testedTask.last_test_status = some "failed" ∧
    testedTask.status = appliedTask.status ∧
    testedTask.timeline = appliedTask.timeline ∧
    testedTask.timeline = [] := by
  decide

/-- Bind of a success result (reduction helper). -/
theorem ok_bind {ε α β : Type} (a : α) (f : α → Except ε β) :
    (Except.ok a : Except ε α) >>= f = f a := rfl

/-- Bind of an error result (reduction helper). -/
theorem err_bind {ε α β : Type} (e : ε) (f : α → Except ε β) :
    (Except.error e : Except ε α) >>= f = .error e := rfl

/-- `git fetch origin` succeeds on a healthy remote. -/
theorem rgc_fetch (st : GitState) (h : st.fetchOk = true) :
    run_git_command ["fetch", "origin"] st = .ok (pyStrip "", st) := by
  simp [run_git_command, gitExec, h]

/-- `git checkout b` of an existing branch with a clean tree. -/
theorem rgc_checkout (st : GitState) (b : String) (hmem : b ∈ st.branches)
    (hclean : st.hasChanges = false) :
    run_git_command ["checkout", b] st = .ok (pyStrip "", { st with current := b }) := by
  simp [run_git_command, gitExec, hmem, hclean]

/-- `git pull origin b` on a healthy remote. -/
theorem rgc_pull (st : GitState) (b : String) (h : st.pullOk = true) :
    run_git_command ["pull", "origin", b] st =
      .ok (pyStrip "Already up to date.", st) := by
  simp [run_git_command, gitExec, h]

/-- `git checkout -b b` when the branch is new. -/
theorem rgc_checkout_new (st : GitState) (b : String) (hb : b ∉ st.branches) :
    run_git_command ["checkout", "-b", b] st =
      .ok (pyStrip "", { st with branches := b :: st.branches, current := b }) := by
  simp [run_git_command, gitExec, hb]

/-- `git checkout -b b` when the branch already exists: raises. -/
theorem rgc_checkout_dup (st : GitState) (b : String) (hb : b ∈ st.branches) :
    run_git_command ["checkout", "-b", b] st =
      .error (.runtime ("Git command failed: " ++ String.intercalate " " ["checkout", "-b", b])) := by
  simp [run_git_command, gitExec, hb]

/-- `ensure_repo_cloned` on a healthy existing clone just switches to the
default branch. -/
theorem ensure_healthy (st : GitState) (hrepo : st.repoExists = true)
    (hfetch : st.fetchOk = true) (hpull : st.pullOk = true)
    (hclean : st.hasChanges = false)
    (hdef : TARGET_REPO_DEFAULT_BRANCH ∈ st.branches) :
    ensure_repo_cloned st = .ok { st with current := TARGET_REPO_DEFAULT_BRANCH } := by
  unfold ensure_repo_cloned
  rw [hrepo, if_neg (by simp)]
  rw [rgc_fetch st hfetch, ok_bind]
  dsimp only
  rw [rgc_checkout st TARGET_REPO_DEFAULT_BRANCH hdef hclean]
  dsimp only
  rw [pure_bind]
  rw [rgc_pull { st with current := TARGET_REPO_DEFAULT_BRANCH } TARGET_REPO_DEFAULT_BRANCH hpull,
    ok_bind]
  dsimp only
  rw [hrepo]

/-- Claim C4 as amended: `create_feature_branch` is not idempotent.  With a
healthy existing clone, when the branch does not yet exist it creates and
checks it out, leaving exactly one branch of that name; when a local branch
of that name already exists, the unconditional `checkout -b` fails and the
operation raises instead of checking the branch out. -/
theorem create_feature_branch_not_idempotent (st : GitState) (b : String)
    (hrepo : st.repoExists = true) (hfetch : st.fetchOk = true)
    (hpull : st.pullOk = true) (hclean : st.hasChanges = false)
    (hdef : TARGET_REPO_DEFAULT_BRANCH ∈ st.branches) :
    create_feature_branch b st =
      (if b ∈ st.branches then
        .error (.runtime ("Git command failed: " ++ String.intercalate " " ["checkout", "-b", b]))
      else
        .ok { st with current := b, branches := b :: st.branches }) ∧
    (b ∉ st.branches → (b :: st.branches).count b = 1) := by
  constructor
  · unfold create_feature_branch
    rw [ensure_healthy st hrepo hfetch hpull hclean hdef, ok_bind]
    rw [rgc_checkout { st with current := TARGET_REPO_DEFAULT_BRANCH }
        TARGET_REPO_DEFAULT_BRANCH hdef hclean, ok_bind]
    dsimp only
    rw [rgc_pull { st with current := TARGET_REPO_DEFAULT_BRANCH }
        TARGET_REPO_DEFAULT_BRANCH hpull, ok_bind]
    dsimp only
    by_cases hb : b ∈ st.branches
    · rw [rgc_checkout_dup { st with current := TARGET_REPO_DEFAULT_BRANCH } b hb,
        err_bind, if_pos hb]
    · rw [rgc_checkout_new { st with current := TARGET_REPO_DEFAULT_BRANCH } b hb,
        ok_bind, if_neg hb]
  · intro hb
    rw [List.count_cons_self, List.count_eq_zero_of_not_mem hb]

/-- Witness for the amended C4 at a healthy clone with only the default
branch. -/
theorem create_feature_branch_not_idempotent_witness :
    (create_feature_branch "cpai-t1" gitAllOk =
      if "cpai-t1" ∈ gitAllOk.branches then
        .error (.runtime ("Git command failed: " ++ String.intercalate " " ["checkout", "-b", "cpai-t1"]))
      else
        .ok { gitAllOk with current := "cpai-t1", branches := "cpai-t1" :: gitAllOk.branches }) ∧
    ("cpai-t1" ∉ gitAllOk.branches → ("cpai-t1" :: gitAllOk.branches).count "cpai-t1" = 1) :=
  create_feature_branch_not_idempotent gitAllOk "cpai-t1" rfl rfl rfl rfl (by decide)

/-- The resolver on a path with no verbatim match and several same-named
candidates: ambiguity error naming all of them. -/
theorem resolve_ambiguous (files : List String) (rel_path : String)
    (hnx : rel_path ∉ files)
    (hamb : 1 < (walkMatches files (baseName rel_path)).length) :
    resolve_repo_file files rel_path =
      .error (.http 400 (ambiguousDetail (baseName rel_path) (walkMatches files (baseName rel_path)))) := by
  unfold resolve_repo_file
  rw [if_neg hnx]
  dsimp only
  rw [if_neg (ne_of_gt hamb), if_pos hamb]

/-- Claim C6: when the first affected file has no verbatim match and more
than one same-named candidate, the apply handler fails with the ambiguity
detail naming every candidate, and the task store is left exactly as it
was. -/
theorem apply_ambiguous_rejected_store_unchanged (store : Store) (task_id : String)
    (req : ApplyTaskCodeRequest) (files : List (String × String))
    (git git1 git2 : GitState) (gen : Gen) (now : String)
    (t : Task) (rel : String) (rest : List String)
    (hload : load_task store task_id = .ok (some t))
    (hstatus : t.status.getD "open" ≠ "closed")
    (hdesc : t.description.getD "" ≠ "")
    (haff : t.affected_files = rel :: rest)
    (hensure : ensure_repo_cloned git = .ok git1)
    (hbranch : create_feature_branch ("cpai-" ++ pyTake (stripDashes task_id) 6) git1 = .ok git2)
    (hnx : rel ∉ fsNames files)
    (hamb : 1 < (walkMatches (fsNames files) (baseName rel)).length) :
    apply_change_for_task store task_id req files git gen now =
      ⟨store, files, git2,
        .error (.http 400 (ambiguousDetail (baseName rel) (walkMatches (fsNames files) (baseName rel))))⟩ := by
  unfold apply_change_for_task
  rw [hload]
  try dsimp only
  rw [if_neg hstatus, if_neg hdesc, haff]
  try dsimp only
  rw [if_neg (by simp)]
  rw [hensure]
  try dsimp only
  rw [hbranch]
  try dsimp only
  unfold applyLoop
  rw [resolve_ambiguous (fsNames files) rel hnx hamb]

/-- Witness for C6: scenario B with `Bar.txt` in two directories. -/
theorem apply_ambiguous_rejected_store_unchanged_witness :
    apply_change_for_task [("t2", some ambTask)] "t2" {} filesAmb gitAllOk genConst now0 =
      ⟨[("t2", some ambTask)], filesAmb, gitAmb,
        .error (.http 400 (ambiguousDetail (baseName "Bar.txt")
          (walkMatches (fsNames filesAmb) (baseName "Bar.txt"))))⟩ :=
  apply_ambiguous_rejected_store_unchanged [("t2", some ambTask)] "t2" {} filesAmb
    gitAllOk gitAllOk gitAmb genConst now0 ambTask "Bar.txt" []
    (by decide) (by decide) (by decide) (by decide) (by decide) (by decide)
    (by decide) (by decide)

/-- Claim C9: listing tasks returns exactly the tasks of the parseable files
(corrupt files are skipped), sorted by the created_at key in descending
order, and every task after one with no created_at also has an empty
created_at key (missing creation times sort last). -/
theorem list_tasks_sorted_desc_corrupt_skipped (store : Store) :
    (list_tasks store).Perm (store.filterMap Prod.snd) ∧
    (list_tasks store).Pairwise (fun a b => sortKey b ≤ sortKey a) ∧
    (list_tasks store).Pairwise (fun a b => a.created_at = none → sortKey b = "") := by
  have hsorted := @List.sorted_mergeSort Task
    (fun a b : Task => decide (sortKey b ≤ sortKey a))
    (fun a b c hab hbc => by
      simp only [decide_eq_true_eq] at *
      exact le_trans hbc hab)
    (fun a b => by
      simp only [Bool.or_eq_true, decide_eq_true_eq]
      exact le_total (sortKey b) (sortKey a))
    (store.filterMap Prod.snd)
  refine ⟨List.mergeSort_perm _ _, ?_, ?_⟩
  · exact hsorted.imp (fun h => of_decide_eq_true h)
  · refine hsorted.imp ?_
    intro a b h hnone
    have hle : sortKey b ≤ sortKey a := of_decide_eq_true h
    have ha : sortKey a = "" := by simp [sortKey, hnone]
    rw [ha] at hle
    have h0 : ("" : String) ≤ sortKey b := by
      rw [String.le_iff_toList_le]
      exact List.nil_le
    exact le_antisymm hle h0

end CodePilot
